import Mathlib

/-!
# Whatsapp-bot-generator: the session relay of `server.js`

A shallow embedding of the in-memory session registry of `server.js`, of its
`message` and `disconnected` listeners and of the two administrative routes
(`set-prompt`, `clear-history`), followed by theorems about them.

Modelling conventions, all read off the source:

* `sessions`, and every `session.users`, is a plain object literal `{}` used as
  a dictionary.  A dictionary is modelled by the list of its own properties in
  insertion order.  A property read `o[k]` first looks at the own properties and
  then walks to `Object.prototype`, so a read yields an own value, a value
  inherited from `Object.prototype`, or `undefined`.
* The routes take their ids from the URL, so they can read and write through
  any inherited name.  What they write on `Object.prototype` itself (a `prompt`
  through the id `__proto__`, a `history` through the user id `__proto__`) is
  kept in `Proto`, next to the registry, and read back by `Dict.read`.  A write
  on any other inherited value (a built-in function, a text, an array) is read
  by no route.
* `message.from` is the serialised WhatsApp id `user@server` of the sender.  It
  contains `@`, so it is never an inherited name, whatever the routes wrote; the
  listener's read `Dict.get` is the read under the engine's own
  `Object.prototype`, and `Dict.read_serialized` shows it is the read for ids.
* `openai.call` and `client.sendMessage` are external calls; how their promises
  settle is an input of the model.  `sendMessage` calls are recorded in a
  dispatch log when they are issued.  `message.getChat()` is taken to resolve.
* An `async` listener runs until its next `await` and is resumed when the
  awaited promise settles; between two suspension points it runs without
  interruption.  `handleMessage` is one listener run with no other event in
  between; `step` interleaves the listeners of a session with each other and
  with the routes.
* `req.body.prompt` and the model's `response.content` are texts.
* A thrown `TypeError` and a rejected send are explicit outcomes.
-/

namespace WhatsappBot

/-! ## Data model -/

/-- Role tag of a chat turn (`role: 'system' | 'user' | 'assistant'`). -/
inductive Role where
  | system
  | user
  | assistant
deriving DecidableEq, Repr

/-- One chat turn `{ role, content }`. -/
structure Turn where
  role : Role
  content : String
deriving DecidableEq, Repr

/-- Own properties of a plain object used as a dictionary, in insertion order. -/
abbrev Dict (V : Type) := List (String × V)

/-- Per-user memory `{ history: [] }`. -/
structure UserEntry where
  history : List Turn
deriving DecidableEq, Repr

/-- One entry of `sessions`: `{ client, prompt, qrPath, users }`.  The `client`
handle is the transport itself and carries no data the handlers read. -/
structure Session where
  prompt : String
  qrPath : String
  users : Dict UserEntry
deriving DecidableEq, Repr

/-- The global `sessions` object. -/
abbrev Registry := Dict Session

/-- Names every plain object inherits from `Object.prototype`. -/
def objectPrototypeKeys : List String :=
  ["constructor", "__proto__", "hasOwnProperty", "isPrototypeOf",
   "propertyIsEnumerable", "toLocaleString", "toString", "valueOf",
   "__defineGetter__", "__defineSetter__", "__lookupGetter__", "__lookupSetter__"]

/-- Outcome of a property read `o[k]` on a plain object. -/
inductive Lookup (V : Type) where
  | own (v : V)
  | inherited
  | undefined
deriving DecidableEq, Repr

/-- Property read `o[k]` under the engine's own `Object.prototype`: own property
first, then the inherited names.  This is the listener's read. -/
def Dict.get {V : Type} (o : Dict V) (k : String) : Lookup V :=
  match o.lookup k with
  | some v => Lookup.own v
  | none => if k ∈ objectPrototypeKeys then Lookup.inherited else Lookup.undefined

/-- Property write `o[k] = v`: replaces the own property in place, or appends it. -/
def Dict.set {V : Type} (o : Dict V) (k : String) (v : V) : Dict V :=
  match o with
  | [] => [(k, v)]
  | (k', v') :: rest =>
    if k' = k then (k, v) :: rest else (k', v') :: Dict.set rest k v

/-- Property removal `delete o[k]`. -/
def Dict.delete {V : Type} (o : Dict V) (k : String) : Dict V :=
  o.filter (fun kv => kv.1 ≠ k)

/-- The call `Array.prototype.slice(start)`, with one argument: a negative `start` counts
from the end, and the start index is clamped to `[0, length]`. -/
def slice {α : Type} (xs : List α) (start : Int) : List α :=
  let len : Int := xs.length
  let k : Int := if start < 0 then max (len + start) 0 else min start len
  xs.drop k.toNat

/-- Serialised WhatsApp id, `user@server`. -/
structure Wid where
  user : String
  server : String
deriving DecidableEq, Repr

/-- The string `message.from` carries for a sender. -/
def Wid.serialized (w : Wid) : String := w.user ++ "@" ++ w.server

/-- An inbound `message` event, with the `isGroup` flag of `message.getChat()`.
`sender` is `message.from`; `body` is `none` when the field is absent. -/
structure Message where
  body : Option String
  sender : String
  isGroup : Bool
deriving DecidableEq, Repr

/-- Errors a handler can end with: a thrown `TypeError`, or the rejection of a
`sendMessage` promise it does not catch. -/
inductive JsError where
  | typeError
  | transportError
deriving DecidableEq, Repr

/-- The literal sent from the `catch` branch, character for character. -/
def fallbackText : String :=
  "âš ï¸ Sorry, something went wrong."

/-- Prompt given to a new session. -/
def defaultPrompt : String := "You are a helpful assistant."

/-! ## Session creation and teardown -/

/-- The registry write of `GET /session/new` for a generated `sessionId`. -/
def createSession (sessions : Registry) (publicPath sessionId : String) : Registry :=
  Dict.set sessions sessionId
    { prompt := defaultPrompt
      qrPath := publicPath ++ "/qr-" ++ sessionId ++ ".png"
      users := [] }

/-- The `disconnected` listener: `delete sessions[sessionId]`. -/
def onDisconnected (sessions : Registry) (sessionId : String) : Registry :=
  Dict.delete sessions sessionId

/-! ## The `message` listener -/

/-- Where the listener stands once `message.getChat()` has resolved and the
synchronous block up to `await openai.call(context)` has run. -/
inductive Started where
  /-- The guard `if (!text || chat.isGroup) return;` fired. -/
  | returned
  /-- The block threw. -/
  | threw (e : JsError)
  /-- The model was called with `context`; the listener is suspended on it. -/
  | calling (sessions : Registry) (context : List Turn)
deriving DecidableEq, Repr

/-- Lines 79 to 90 for the user entry `entry` found or just created: push the
user turn, build the context, call the model. -/
def pushAndCall (sessions : Registry) (sessionId : String) (session : Session)
    (userId text : String) (entry : UserEntry) : Started :=
  let userHistory := entry.history ++ [{ role := Role.user, content := text }]
  let context := { role := Role.system, content := session.prompt } :: slice userHistory (-10)
  let users := Dict.set session.users userId { history := userHistory }
  Started.calling (Dict.set sessions sessionId { session with users := users }) context

/-- The listener from the guard to the model call (lines 67 to 90).  `!text`
holds for an absent and for an empty body.  A `sessions[sessionId]` that is
not an own session makes `session.users[userId]` throw.  A
`session.users[userId]` that is inherited is truthy, so no entry is created,
its `.history` is `undefined` and `userHistory.push` throws.  For a WhatsApp id
the read is the own entry or `undefined`, whatever the routes wrote on
`Object.prototype` (`Dict.read_serialized`). -/
def onChat (sessions : Registry) (sessionId : String) (message : Message) : Started :=
  match message.body with
  | none => Started.returned
  | some text =>
    if text = "" || message.isGroup then Started.returned
    else
      match Dict.get sessions sessionId with
      | Lookup.undefined => Started.threw JsError.typeError
      | Lookup.inherited => Started.threw JsError.typeError
      | Lookup.own session =>
        let userId := message.sender
        match Dict.get session.users userId with
        | Lookup.inherited => Started.threw JsError.typeError
        | Lookup.undefined => pushAndCall sessions sessionId session userId text { history := [] }
        | Lookup.own entry => pushAndCall sessions sessionId session userId text entry

/-- The effect of `userHistory.push(turn)` on the registry while the array the
listener captured on line 79 is still the one stored at
`sessions[sessionId].users[userId].history`. -/
def pushHistory (sessions : Registry) (sessionId userId : String) (turn : Turn) : Registry :=
  match sessions.lookup sessionId with
  | none => sessions
  | some session =>
    match session.users.lookup userId with
    | none => sessions
    | some entry =>
      Dict.set sessions sessionId
        { session with users := Dict.set session.users userId { history := entry.history ++ [turn] } }

/-- The listener from the moment `openai.call` settled to its first
`sendMessage` (lines 91 to 96, or 98 to 99 after a rejection): on a reply, push
the assistant turn and send the reply; on a rejection, send the fallback text.
`attached` says whether the array captured on line 79 is still the stored one:
after clear-history replaced it or the session was deleted, the push lands on
an array the registry no longer holds.  Returns the registry and the text sent
to `message.from`. -/
def onSettled (sessions : Registry) (sessionId userId : String) (attached : Bool)
    (result : Option String) : Registry × String :=
  match result with
  | some reply =>
    (if attached then
        pushHistory sessions sessionId userId { role := Role.assistant, content := reply }
      else sessions,
      reply)
  | none => (sessions, fallbackText)

/-- How the `sendMessage` promises of one listener run settle: `reply` for the
send of the reply on line 96, `notice` for the send of the fallback text on
line 99; `true` is resolved, `false` is rejected. -/
structure Delivery where
  reply : Bool
  notice : Bool
deriving DecidableEq, Repr

/-- The `sendMessage` calls of one listener run once the model settled, and the
error the run ends with.  The send of the reply is inside the `try`, so its
rejection runs the `catch` branch, which sends the fallback text as well; a
rejection of that send is not caught. -/
def sendAll (userId : String) (result : Option String) (delivery : Delivery) :
    List (String × String) × Option JsError :=
  let notice : Option JsError :=
    if delivery.notice then none else some JsError.transportError
  match result with
  | some reply =>
    if delivery.reply then ([(userId, reply)], none)
    else ([(userId, reply), (userId, fallbackText)], notice)
  | none => ([(userId, fallbackText)], notice)

/-- Everything observable after one run of the listener. -/
structure Outcome where
  /-- The registry afterwards. -/
  sessions : Registry
  /-- The contexts passed to `openai.call`, in order. -/
  calls : List (List Turn)
  /-- The `sendMessage(to, text)` calls, in order. -/
  sent : List (String × String)
  /-- The error the listener's promise rejected with, if any. -/
  error : Option JsError
deriving DecidableEq, Repr

/-- One `message` event handled to completion with no other event in between:
`result` is what `openai.call` settles to if it is called, `delivery` how the
sends settle. -/
def handleMessage (sessions : Registry) (sessionId : String) (message : Message)
    (result : Option String) (delivery : Delivery) : Outcome :=
  match onChat sessions sessionId message with
  | Started.returned => { sessions := sessions, calls := [], sent := [], error := none }
  | Started.threw e => { sessions := sessions, calls := [], sent := [], error := some e }
  | Started.calling sessions' context =>
    { sessions := (onSettled sessions' sessionId message.sender true result).1
      calls := [context]
      sent := (sendAll message.sender result delivery).1
      error := (sendAll message.sender result delivery).2 }

/-! ## Administrative routes -/

/-- What the routes have written on `Object.prototype`. -/
structure Proto where
  /-- The text at `Object.prototype.prompt`, written by set-prompt through the id
  `__proto__`; `none` while the property does not exist. -/
  prompt : Option String
  /-- Whether `Object.prototype.history` exists; it is an array, written by
  clear-history through the user id `__proto__`. -/
  history : Bool
deriving DecidableEq, Repr

/-- The state the routes work on: the registry and `Object.prototype`. -/
structure Runtime where
  sessions : Registry
  proto : Proto
deriving DecidableEq, Repr

/-- The prototype as the engine ships it. -/
def Proto.pristine : Proto := { prompt := none, history := false }

/-- A value found on the prototype chain. -/
inductive Inherited where
  /-- The object `Object.prototype` itself, read under `__proto__`. -/
  | prototype
  /-- One of the engine's functions, such as `constructor`. -/
  | builtin
  /-- The text at `Object.prototype.prompt`. -/
  | text (p : String)
  /-- The array at `Object.prototype.history`. -/
  | array
deriving DecidableEq, Repr

/-- JavaScript truthiness: of the inherited values only the empty text is falsy. -/
def Inherited.truthy : Inherited → Bool
  | Inherited.text p => p ≠ ""
  | _ => true

/-- Outcome of a property read `o[k]` in a route. -/
inductive Read (V : Type) where
  | own (v : V)
  | inherited (x : Inherited)
  | undefined
deriving DecidableEq, Repr

/-- Property read `o[k]` on a plain object: own property first, then
`Object.prototype` with what the routes wrote on it. -/
def Dict.read {V : Type} (proto : Proto) (o : Dict V) (k : String) : Read V :=
  match o.lookup k with
  | some v => Read.own v
  | none =>
    if k = "__proto__" then Read.inherited Inherited.prototype
    else if k ∈ objectPrototypeKeys then Read.inherited Inherited.builtin
    else if k = "prompt" then
      match proto.prompt with
      | some p => Read.inherited (Inherited.text p)
      | none => Read.undefined
    else if k = "history" ∧ proto.history = true then Read.inherited Inherited.array
    else Read.undefined

/-- What a route handler does with the request: a JSON body with a status, or
a thrown error. -/
inductive Reply where
  | json (status : Nat) (message : String)
  | threw (e : JsError)
deriving DecidableEq, Repr

/-- The route `POST /session/:id/set-prompt`.  The guard `!sessions[id]` passes
for every truthy read.  The assignment `sessions[id].prompt = prompt` then
writes the session, or `Object.prototype` when the id is `__proto__`, or a
built-in function or the inherited array, where no route reads it; on an
inherited text it does nothing. -/
def setPrompt (rt : Runtime) (id prompt : String) : Reply × Runtime :=
  match Dict.read rt.proto rt.sessions id with
  | Read.undefined => (Reply.json 404 "Session not found", rt)
  | Read.own session =>
    (Reply.json 200 "Prompt updated",
      { rt with sessions := Dict.set rt.sessions id { session with prompt := prompt } })
  | Read.inherited x =>
    if x.truthy then
      (Reply.json 200 "Prompt updated",
        match x with
        | Inherited.prototype => { rt with proto := { rt.proto with prompt := some prompt } }
        | _ => rt)
    else (Reply.json 404 "Session not found", rt)

/-- The route `POST /session/:id/clear-history/:userId`.  A truthy inherited
`sessions[id]` has no `users` (no route writes one), so indexing it throws.  A
truthy inherited `users[userId]` passes the guard, and the assignment
`.history = []` then writes `Object.prototype` when the user id is `__proto__`,
or a built-in function or the inherited array, where no route reads it; on an
inherited text it does nothing. -/
def clearHistory (rt : Runtime) (id userId : String) : Reply × Runtime :=
  match Dict.read rt.proto rt.sessions id with
  | Read.undefined => (Reply.json 404 "Session or user not found", rt)
  | Read.inherited x =>
    if x.truthy then (Reply.threw JsError.typeError, rt)
    else (Reply.json 404 "Session or user not found", rt)
  | Read.own session =>
    match Dict.read rt.proto session.users userId with
    | Read.undefined => (Reply.json 404 "Session or user not found", rt)
    | Read.inherited y =>
      if y.truthy then
        (Reply.json 200 "User history cleared",
          match y with
          | Inherited.prototype => { rt with proto := { rt.proto with history := true } }
          | _ => rt)
      else (Reply.json 404 "Session or user not found", rt)
    | Read.own _ =>
      (Reply.json 200 "User history cleared",
        { rt with
          sessions := Dict.set rt.sessions id
            { session with users := Dict.set session.users userId { history := [] } } })

/-! ## Reading the registry -/

/-- The history stored for `userId` in a session; empty before first contact. -/
def Session.historyOf (session : Session) (userId : String) : List Turn :=
  match session.users.lookup userId with
  | some entry => entry.history
  | none => []

/-- The history stored for `userId` in session `sessionId` of the registry. -/
def historyOf (sessions : Registry) (sessionId userId : String) : List Turn :=
  match sessions.lookup sessionId with
  | some session => session.historyOf userId
  | none => []

/-- Messages handled one after the other, each to completion before the next
arrives; every input gives a message, what `openai.call` settles to and how
the sends settle. -/
def handleAll (sessions : Registry) (sessionId : String) :
    List (Message × Option String × Delivery) → Registry
  | [] => sessions
  | (message, result, delivery) :: rest =>
    handleAll (handleMessage sessions sessionId message result delivery).sessions sessionId rest

/-! ## Interleaved listeners

The listener has four suspension points: `await message.getChat()` (line 68),
`await openai.call(context)` (line 90), `await sendMessage(from, reply)` (line
96) and `await sendMessage(from, fallback)` (line 99).  The blocks between them
are `onChat`, `onSettled` and the `catch` branch. -/

/-- Where a listener stands. -/
inductive Phase where
  /-- Suspended on `message.getChat()`. -/
  | chat
  /-- Suspended on `openai.call(context)`; `attached` says whether the array it
  captured on line 79 is still the one the registry stores. -/
  | model (attached : Bool)
  /-- Suspended on the send of the reply (line 96). -/
  | replySend
  /-- Suspended on the send of the fallback text (line 99). -/
  | noticeSend
  /-- Returned, or rejected with `error`. -/
  | finished (error : Option JsError)
deriving DecidableEq, Repr

/-- One run of the `message` listener. -/
structure Listener where
  message : Message
  phase : Phase
deriving DecidableEq, Repr

/-- A `sendMessage(to, text)` call, tagged with the arrival index of the
message it answers. -/
structure Dispatch where
  inReplyTo : Nat
  recipient : String
  text : String
deriving DecidableEq, Repr

/-- State of one session's listeners. -/
structure Relay where
  /-- The registry and `Object.prototype`. -/
  runtime : Runtime
  /-- The listener runs, in the order the transport emitted their messages; the
  index is the arrival index. -/
  listeners : List Listener
  /-- The `sendMessage` calls, in the order they were issued. -/
  sent : List Dispatch
deriving DecidableEq, Repr

/-- What can happen next. -/
inductive Event where
  /-- The transport emits a `message` event. -/
  | arrive (message : Message)
  /-- The `getChat()` promise of message `n` resolves. -/
  | chatResolved (n : Nat)
  /-- The `openai.call` promise of message `n` settles. -/
  | settled (n : Nat) (result : Option String)
  /-- The `sendMessage` promise message `n` waits for resolves or rejects. -/
  | sendSettled (n : Nat) (ok : Bool)
  /-- A request `POST /session/:id/set-prompt`. -/
  | setPrompt (id prompt : String)
  /-- A request `POST /session/:id/clear-history/:userId`. -/
  | clearHistory (id userId : String)
  /-- The transport emits `disconnected`. -/
  | disconnected
deriving DecidableEq, Repr

/-- A relay with no message received yet. -/
def Relay.start (sessions : Registry) : Relay :=
  { runtime := { sessions := sessions, proto := Proto.pristine }, listeners := [], sent := [] }

/-- Whether clear-history replaces a stored array: it does on an own entry. -/
def replacesHistory (sessions : Registry) (id userId : String) : Bool :=
  match sessions.lookup id with
  | none => false
  | some session => (session.users.lookup userId).isSome

/-- The listener after the array of `userId` was replaced: one suspended on the
model for that sender keeps the old array. -/
def Listener.detachFor (userId : String) (listener : Listener) : Listener :=
  match listener.phase with
  | Phase.model _ =>
    if listener.message.sender = userId then { listener with phase := Phase.model false }
    else listener
  | _ => listener

/-- The listener after the session was deleted: one suspended on the model
keeps the old session and its array. -/
def Listener.detach (listener : Listener) : Listener :=
  match listener.phase with
  | Phase.model _ => { listener with phase := Phase.model false }
  | _ => listener

/-- One step of session `sessionId`.  An event for a listener that is not
suspended at that point does nothing. -/
def step (sessionId : String) (s : Relay) : Event → Relay
  | Event.arrive message =>
    { s with listeners := s.listeners ++ [{ message := message, phase := Phase.chat }] }
  | Event.chatResolved n =>
    match s.listeners[n]? with
    | none => s
    | some listener =>
      match listener.phase with
      | Phase.chat =>
        match onChat s.runtime.sessions sessionId listener.message with
        | Started.returned =>
          { s with listeners := s.listeners.set n { listener with phase := Phase.finished none } }
        | Started.threw e =>
          { s with listeners := s.listeners.set n { listener with phase := Phase.finished (some e) } }
        | Started.calling sessions' _ =>
          { s with
            runtime := { s.runtime with sessions := sessions' }
            listeners := s.listeners.set n { listener with phase := Phase.model true } }
      | _ => s
  | Event.settled n result =>
    match s.listeners[n]? with
    | none => s
    | some listener =>
      match listener.phase with
      | Phase.model attached =>
        { s with
          runtime :=
            { s.runtime with
              sessions :=
                (onSettled s.runtime.sessions sessionId listener.message.sender attached result).1 }
          listeners := s.listeners.set n
            { listener with phase := if result.isSome then Phase.replySend else Phase.noticeSend }
          sent := s.sent ++
            [{ inReplyTo := n
               recipient := listener.message.sender
               text :=
                (onSettled s.runtime.sessions sessionId listener.message.sender attached result).2 }] }
      | _ => s
  | Event.sendSettled n ok =>
    match s.listeners[n]? with
    | none => s
    | some listener =>
      match listener.phase with
      | Phase.replySend =>
        if ok then
          { s with listeners := s.listeners.set n { listener with phase := Phase.finished none } }
        else
          { s with
            listeners := s.listeners.set n { listener with phase := Phase.noticeSend }
            sent := s.sent ++
              [{ inReplyTo := n, recipient := listener.message.sender, text := fallbackText }] }
      | Phase.noticeSend =>
        { s with
          listeners := s.listeners.set n
            { listener with
              phase := Phase.finished (if ok then none else some JsError.transportError) } }
      | _ => s
  | Event.setPrompt id prompt => { s with runtime := (setPrompt s.runtime id prompt).2 }
  | Event.clearHistory id userId =>
    { s with
      runtime := (clearHistory s.runtime id userId).2
      listeners :=
        if id = sessionId ∧ replacesHistory s.runtime.sessions id userId = true then
          s.listeners.map (Listener.detachFor userId)
        else s.listeners }
  | Event.disconnected =>
    { s with
      runtime := { s.runtime with sessions := onDisconnected s.runtime.sessions sessionId }
      listeners := s.listeners.map Listener.detach }

/-- The relay after a schedule of events. -/
def run (sessionId : String) (s : Relay) (events : List Event) : Relay :=
  events.foldl (step sessionId) s

/-- What one event makes the listeners send in state `s`: the settlement of a
listener suspended on the model sends its reply, or the fallback text after a
rejection; the rejection of a reply send sends the fallback text. -/
def dispatchedBy (s : Relay) : Event → List Dispatch
  | Event.settled n result =>
    match s.listeners[n]? with
    | none => []
    | some listener =>
      match listener.phase with
      | Phase.model _ =>
        [{ inReplyTo := n, recipient := listener.message.sender, text := result.getD fallbackText }]
      | _ => []
  | Event.sendSettled n false =>
    match s.listeners[n]? with
    | none => []
    | some listener =>
      match listener.phase with
      | Phase.replySend =>
        [{ inReplyTo := n, recipient := listener.message.sender, text := fallbackText }]
      | _ => []
  | _ => []

/-- What a schedule makes the listeners send, event by event. -/
def dispatchedOver (sessionId : String) (s : Relay) : List Event → List Dispatch
  | [] => []
  | e :: rest => dispatchedBy s e ++ dispatchedOver sessionId (step sessionId s e) rest

/-- The events of one listener run with no other event in between, for the
message that arrives as number `n`. -/
def uninterrupted (n : Nat) (message : Message) (result : Option String)
    (delivery : Delivery) : List Event :=
  [Event.arrive message, Event.chatResolved n, Event.settled n result] ++
    match result with
    | some _ =>
      if delivery.reply then [Event.sendSettled n true]
      else [Event.sendSettled n false, Event.sendSettled n delivery.notice]
    | none => [Event.sendSettled n delivery.notice]

/-- The arrival indices of the model settlements of a schedule, in schedule
order. -/
def settledIds : List Event → List Nat
  | [] => []
  | Event.settled n _ :: rest => n :: settledIds rest
  | _ :: rest => settledIds rest

/-- Whether a schedule has no rejected send. -/
def sendsResolve : List Event → Bool
  | [] => true
  | Event.sendSettled _ ok :: rest => ok && sendsResolve rest
  | _ :: rest => sendsResolve rest

/-- The claim's alternation: the turns come in pairs, a user turn immediately
followed by an assistant turn. -/
def alternates : List Turn → Bool
  | [] => true
  | u :: a :: rest => u.role = Role.user && a.role = Role.assistant && alternates rest
  | [_] => false

/-- The turns one handled message adds to a history: the user turn, then the
assistant turn when the model replied. -/
def exchange (text : String) (result : Option String) : List Turn :=
  match result with
  | some reply => [{ role := Role.user, content := text }, { role := Role.assistant, content := reply }]
  | none => [{ role := Role.user, content := text }]

/-- The inputs of `handleAll` for texts sent by one sender, each with what
`openai.call` settles to and how the sends settle. -/
def fromSender (w : Wid) (inputs : List (String × Option String × Delivery)) :
    List (Message × Option String × Delivery) :=
  inputs.map fun x =>
    ({ body := some x.1, sender := w.serialized, isGroup := false }, x.2.1, x.2.2)

/-- The dispatch log entry for a `sendMessage` call answering message `n`. -/
def Dispatch.ofSend (n : Nat) (send : String × String) : Dispatch :=
  { inReplyTo := n, recipient := send.1, text := send.2 }

/-! ## Sample values -/

/-- A sender id. -/
def sampleWid : Wid := { user := "15550001111", server := "c.us" }

/-- A registry holding one new session, `S`. -/
def freshRegistry : Registry := createSession [] "public" "S"

/-- The session `S` of `freshRegistry`. -/
def freshSession : Session :=
  { prompt := "You are a helpful assistant.", qrPath := "public/qr-S.png", users := [] }

/-- The registry `freshRegistry` under the engine's own `Object.prototype`. -/
def freshRuntime : Runtime := { sessions := freshRegistry, proto := Proto.pristine }

/-- Fifty stored turns. -/
def fiftyTurns : List Turn :=
  (List.replicate 25 [Turn.mk Role.user "ping", Turn.mk Role.assistant "pong"]).flatten

/-- A session whose first user has fifty stored turns. -/
def busySession : Session :=
  { prompt := "Reply in French."
    qrPath := "public/qr-S.png"
    users := [("15550001111@c.us", { history := fiftyTurns }), ("15550002222@c.us", { history := [Turn.mk Role.user "hola"] })] }

/-- A registry holding `busySession` as `S` and a new session `T`. -/
def busyRegistry : Registry := createSession [("S", busySession)] "public" "T"

/-- The registry `busyRegistry` under the engine's own `Object.prototype`. -/
def busyRuntime : Runtime := { sessions := busyRegistry, proto := Proto.pristine }

/-- Every send resolves. -/
def delivered : Delivery := { reply := true, notice := true }

/-- The send of the reply is rejected, the send of the fallback text resolves. -/
def replyRejected : Delivery := { reply := false, notice := true }

/-- The message with text `text` from `sampleWid`. -/
def sampleMessage (text : String) : Message :=
  { body := some text, sender := sampleWid.serialized, isGroup := false }

/-- Two messages of one user; the model call of the second settles first. -/
def overtakingSchedule : List Event :=
  [Event.arrive (sampleMessage "first"),
   Event.arrive (sampleMessage "second"),
   Event.chatResolved 0,
   Event.chatResolved 1,
   Event.settled 1 (some "second reply"),
   Event.settled 0 (some "first reply")]

/-- Two messages of one user, each handled to completion before the next. -/
def inTurnSchedule : List Event :=
  uninterrupted 0 (sampleMessage "first") (some "first reply") delivered ++
    uninterrupted 1 (sampleMessage "second") none delivered

/-- A second message of the same user arrives and is pushed while the model
call of the first is pending; then the first call settles and its send
resolves. -/
def overlappingSchedule (result : Option String) : List Event :=
  [Event.arrive (sampleMessage "first"),
   Event.chatResolved 0,
   Event.arrive (sampleMessage "second"),
   Event.chatResolved 1,
   Event.settled 0 result,
   Event.sendSettled 0 true]

/-! ## Dictionary lemmas -/

theorem Dict.lookup_set_self {V : Type} (o : Dict V) (k : String) (v : V) :
    (Dict.set o k v).lookup k = some v := by
  induction o with
  | nil => simp [Dict.set]
  | cons kv rest ih =>
    obtain ⟨k', v'⟩ := kv
    by_cases h : k' = k
    · simp [Dict.set, h]
    · have h' : (k == k') = false := by simpa using fun e => h e.symm
      simp [Dict.set, h, List.lookup_cons, h', ih]

theorem Dict.lookup_set_ne {V : Type} (o : Dict V) (k j : String) (v : V) (h : j ≠ k) :
    (Dict.set o k v).lookup j = o.lookup j := by
  induction o with
  | nil =>
    have h' : (j == k) = false := by simpa using h
    simp [Dict.set, List.lookup_cons, h']
  | cons kv rest ih =>
    obtain ⟨k', v'⟩ := kv
    by_cases hk : k' = k
    · subst hk
      have h' : (j == k') = false := by simpa using h
      simp [Dict.set, List.lookup_cons, h']
    · simp [Dict.set, hk, List.lookup_cons, ih]

theorem Dict.get_of_lookup {V : Type} (o : Dict V) (k : String) (v : V)
    (h : o.lookup k = some v) : Dict.get o k = Lookup.own v := by
  simp [Dict.get, h]

theorem Dict.read_of_lookup {V : Type} (proto : Proto) (o : Dict V) (k : String) (v : V)
    (h : o.lookup k = some v) : Dict.read proto o k = Read.own v := by
  simp [Dict.read, h]

theorem Dict.lookup_delete_self {V : Type} (o : Dict V) (k : String) :
    (Dict.delete o k).lookup k = none := by
  induction o with
  | nil => simp [Dict.delete]
  | cons kv rest ih =>
    obtain ⟨k', v'⟩ := kv
    by_cases h : k' = k
    · simpa [Dict.delete, List.filter_cons, h] using ih
    · have h' : (k == k') = false := by simpa using fun e => h e.symm
      simpa [Dict.delete, List.filter_cons, h, List.lookup_cons, h'] using ih

/-- A serialised WhatsApp id contains `@`. -/
theorem Wid.at_mem_serialized (w : Wid) : '@' ∈ w.serialized.data := by
  simp [Wid.serialized]

/-- A serialised WhatsApp id contains `@`, which no inherited name does. -/
theorem Wid.serialized_not_inherited (w : Wid) : w.serialized ∉ objectPrototypeKeys := by
  intro hmem
  have hno : ∀ k ∈ objectPrototypeKeys, '@' ∉ k.data := by decide
  exact hno _ hmem w.at_mem_serialized

theorem Dict.get_serialized {V : Type} (o : Dict V) (w : Wid) :
    Dict.get o w.serialized =
      match o.lookup w.serialized with
      | some v => Lookup.own v
      | none => Lookup.undefined := by
  unfold Dict.get
  cases o.lookup w.serialized with
  | some v => rfl
  | none => simp [Wid.serialized_not_inherited w]

/-- Whatever the routes wrote on `Object.prototype`, the read of a WhatsApp id
is the own property or `undefined`, as in `Dict.get`. -/
theorem Dict.read_serialized {V : Type} (proto : Proto) (o : Dict V) (w : Wid) :
    Dict.read proto o w.serialized =
      match o.lookup w.serialized with
      | some v => Read.own v
      | none => Read.undefined := by
  have hne : ∀ k : String, '@' ∉ k.data → w.serialized ≠ k := by
    intro k hk heq
    exact hk (heq ▸ w.at_mem_serialized)
  have h1 : w.serialized ≠ "__proto__" := hne _ (by decide)
  have h2 : w.serialized ≠ "prompt" := hne _ (by decide)
  have h3 : w.serialized ≠ "history" := hne _ (by decide)
  unfold Dict.read
  cases o.lookup w.serialized with
  | some v => rfl
  | none => simp [Wid.serialized_not_inherited w, h1, h2, h3]

/-! ## Slicing -/

theorem slice_neg_ten {α : Type} (xs : List α) : slice xs (-10) = xs.drop (xs.length - 10) := by
  have h : (max ((xs.length : Int) + -10) 0).toNat = xs.length - 10 := by omega
  simp [slice, h]

/-! ## The listener on a registered session -/

theorem historyOf_set (sessions : Registry) (sessionId userId : String) (session : Session)
    (history : List Turn) :
    historyOf
      (Dict.set sessions sessionId
        { session with users := Dict.set session.users userId { history := history } })
      sessionId userId = history := by
  simp [historyOf, Session.historyOf, Dict.lookup_set_self]

/-- On a registered session, a non-empty non-group message from a WhatsApp
sender reaches the model call with the user turn pushed. -/
theorem onChat_registered (sessions : Registry) (sessionId : String) (session : Session)
    (hreg : sessions.lookup sessionId = some session) (w : Wid) (t : String) (ht : t ≠ "") :
    onChat sessions sessionId { body := some t, sender := w.serialized, isGroup := false } =
      pushAndCall sessions sessionId session w.serialized t
        { history := session.historyOf w.serialized } := by
  simp only [onChat, ht, Dict.get_of_lookup sessions sessionId session hreg,
    Dict.get_serialized, Session.historyOf]
  cases session.users.lookup w.serialized <;> simp

theorem pushHistory_after_call (sessions : Registry) (sessionId userId : String)
    (session : Session) (history : List Turn) (turn : Turn) :
    pushHistory
      (Dict.set sessions sessionId
        { session with users := Dict.set session.users userId { history := history } })
      sessionId userId turn =
    Dict.set
      (Dict.set sessions sessionId
        { session with users := Dict.set session.users userId { history := history } })
      sessionId
      { session with
        users := Dict.set (Dict.set session.users userId { history := history }) userId
          { history := history ++ [turn] } } := by
  simp [pushHistory, Dict.lookup_set_self]

/-- What one run of the listener leaves behind on a registered session, for a
non-empty non-group message from a WhatsApp sender. -/
theorem handleMessage_registered (sessions : Registry) (sessionId : String) (session : Session)
    (hreg : sessions.lookup sessionId = some session) (w : Wid) (t : String) (ht : t ≠ "")
    (result : Option String) (delivery : Delivery) :
    (handleMessage sessions sessionId
        { body := some t, sender := w.serialized, isGroup := false } result delivery).calls =
      [{ role := Role.system, content := session.prompt } ::
        slice (session.historyOf w.serialized ++ [{ role := Role.user, content := t }]) (-10)]
    ∧ (handleMessage sessions sessionId
        { body := some t, sender := w.serialized, isGroup := false } result delivery).error =
      (sendAll w.serialized result delivery).2
    ∧ (handleMessage sessions sessionId
        { body := some t, sender := w.serialized, isGroup := false } result delivery).sent =
      (sendAll w.serialized result delivery).1
    ∧ historyOf (handleMessage sessions sessionId
        { body := some t, sender := w.serialized, isGroup := false } result delivery).sessions
        sessionId w.serialized =
      session.historyOf w.serialized ++ exchange t result := by
  cases result with
  | none =>
    simp [handleMessage, onChat_registered sessions sessionId session hreg w t ht, pushAndCall,
      onSettled, historyOf_set, exchange]
  | some reply =>
    simp [handleMessage, onChat_registered sessions sessionId session hreg w t ht, pushAndCall,
      onSettled, pushHistory_after_call, exchange, historyOf, Session.historyOf,
      Dict.lookup_set_self]

/-- A registered session stays registered through one run of the listener. -/
theorem handleMessage_keeps_registered (sessions : Registry) (sessionId : String)
    (session : Session) (hreg : sessions.lookup sessionId = some session) (w : Wid)
    (t : String) (ht : t ≠ "") (result : Option String) (delivery : Delivery) :
    ∃ session' : Session,
      (handleMessage sessions sessionId
        { body := some t, sender := w.serialized, isGroup := false } result
        delivery).sessions.lookup sessionId = some session'
      ∧ session'.historyOf w.serialized = session.historyOf w.serialized ++ exchange t result := by
  have hhist :=
    (handleMessage_registered sessions sessionId session hreg w t ht result delivery).2.2.2
  unfold historyOf at hhist
  cases hlook : (handleMessage sessions sessionId
      { body := some t, sender := w.serialized, isGroup := false } result
      delivery).sessions.lookup sessionId with
  | some session' =>
    rw [hlook] at hhist
    exact ⟨session', rfl, hhist⟩
  | none =>
    rw [hlook] at hhist
    cases result <;> simp [exchange] at hhist

/-- Messages of one sender handled one after the other extend the stored
history by their exchanges, in order. -/
theorem handleAll_history (w : Wid) (inputs : List (String × Option String × Delivery)) :
    ∀ (sessions : Registry) (sessionId : String) (session : Session),
      sessions.lookup sessionId = some session → (∀ x ∈ inputs, x.1 ≠ "") →
      historyOf (handleAll sessions sessionId (fromSender w inputs)) sessionId w.serialized =
        session.historyOf w.serialized ++ (inputs.map fun x => exchange x.1 x.2.1).flatten := by
  induction inputs with
  | nil =>
    intro sessions sessionId session hreg _
    simp [fromSender, handleAll, historyOf, hreg]
  | cons x rest ih =>
    intro sessions sessionId session hreg hne
    obtain ⟨session', hreg', hhist'⟩ :=
      handleMessage_keeps_registered sessions sessionId session hreg w x.1
        (hne x (List.mem_cons_self _ _)) x.2.1 x.2.2
    have hrest := ih _ sessionId session' hreg' (fun y hy => hne y (List.mem_cons_of_mem _ hy))
    simp only [fromSender, List.map_cons, handleAll] at hrest ⊢
    rw [hrest, hhist']
    simp [List.append_assoc]

theorem alternates_append (xs ys : List Turn) (hx : alternates xs = true)
    (hy : alternates ys = true) : alternates (xs ++ ys) = true := by
  induction xs using alternates.induct with
  | case1 => simpa using hy
  | case2 u a rest ih =>
    simp only [alternates, Bool.and_eq_true, decide_eq_true_eq] at hx
    simp [alternates, hx.1.1, hx.1.2, ih hx.2]
  | case3 x => simp [alternates] at hx

theorem alternates_exchanges (inputs : List (String × Option String × Delivery))
    (hok : ∀ x ∈ inputs, x.2.1 ≠ none) :
    alternates (inputs.map fun x => exchange x.1 x.2.1).flatten = true := by
  induction inputs with
  | nil => simp [alternates]
  | cons x rest ih =>
    obtain ⟨t, result, delivery⟩ := x
    cases result with
    | none => exact absurd rfl (hok (t, none, delivery) (List.mem_cons_self _ _))
    | some reply =>
      simpa [exchange, alternates] using ih fun y hy => hok y (List.mem_cons_of_mem _ hy)

/-! ## Interleaved listeners -/

/-- The text `onSettled` sends is the reply, or the fallback text. -/
theorem onSettled_text (sessions : Registry) (sessionId userId : String) (attached : Bool)
    (result : Option String) :
    (onSettled sessions sessionId userId attached result).2 = result.getD fallbackText := by
  cases result <;> rfl

/-- One step appends to the dispatch log exactly what the event dispatches. -/
theorem step_sent (sessionId : String) (s : Relay) (e : Event) :
    (step sessionId s e).sent = s.sent ++ dispatchedBy s e := by
  cases e with
  | arrive message => simp [step, dispatchedBy]
  | chatResolved n =>
    simp only [step, dispatchedBy, List.append_nil]
    cases s.listeners[n]? with
    | none => rfl
    | some listener =>
      simp only
      cases listener.phase <;> simp only
      cases onChat s.runtime.sessions sessionId listener.message <;> rfl
  | settled n result =>
    simp only [step, dispatchedBy]
    cases s.listeners[n]? with
    | none => simp
    | some listener =>
      simp only
      cases listener.phase <;> simp [onSettled_text]
  | sendSettled n ok =>
    cases ok <;> simp only [step, dispatchedBy] <;>
      cases s.listeners[n]? with
      | none => simp
      | some listener =>
        simp only
        cases listener.phase <;> simp
  | setPrompt id prompt => simp [step, dispatchedBy]
  | clearHistory id userId => simp [step, dispatchedBy]
  | disconnected => simp [step, dispatchedBy]

/-- Over a schedule the dispatch log grows by what its events dispatch, in
schedule order. -/
theorem run_sent (sessionId : String) (events : List Event) :
    ∀ s : Relay, (run sessionId s events).sent = s.sent ++ dispatchedOver sessionId s events := by
  induction events with
  | nil => intro s; simp [run, dispatchedOver]
  | cons e rest ih =>
    intro s
    have h := ih (step sessionId s e)
    simp only [run, List.foldl_cons, dispatchedOver] at h ⊢
    rw [h, step_sent, List.append_assoc]

theorem settledIds_cons (e : Event) (events : List Event) :
    settledIds (e :: events) = settledIds [e] ++ settledIds events := by
  cases e <;> simp [settledIds]

/-- Unless it is a rejected send, an event dispatches at most the answer to the
message whose model call it settles. -/
theorem dispatchedBy_ids (s : Relay) (e : Event) (h : sendsResolve [e] = true) :
    ((dispatchedBy s e).map Dispatch.inReplyTo).Sublist (settledIds [e]) := by
  cases e with
  | settled n result =>
    simp only [dispatchedBy, settledIds]
    cases s.listeners[n]? with
    | none => simp
    | some listener =>
      simp only
      cases listener.phase <;> simp
  | sendSettled n ok =>
    cases ok with
    | true => simp [dispatchedBy, settledIds]
    | false => simp [sendsResolve] at h
  | arrive message => simp [dispatchedBy, settledIds]
  | chatResolved n => simp [dispatchedBy, settledIds]
  | setPrompt id prompt => simp [dispatchedBy, settledIds]
  | clearHistory id userId => simp [dispatchedBy, settledIds]
  | disconnected => simp [dispatchedBy, settledIds]

theorem sendsResolve_cons (e : Event) (events : List Event) :
    sendsResolve (e :: events) = (sendsResolve [e] && sendsResolve events) := by
  cases e <;> simp [sendsResolve]

/-- With no rejected send, the messages answered over a schedule are, in order,
a sublist of the messages whose model call it settles. -/
theorem dispatchedOver_ids (sessionId : String) (events : List Event) :
    ∀ s : Relay, sendsResolve events = true →
      ((dispatchedOver sessionId s events).map Dispatch.inReplyTo).Sublist (settledIds events) := by
  induction events with
  | nil => intro s _; simp [dispatchedOver, settledIds]
  | cons e rest ih =>
    intro s h
    rw [sendsResolve_cons, Bool.and_eq_true] at h
    rw [settledIds_cons]
    simp only [dispatchedOver, List.map_append]
    exact (dispatchedBy_ids s e h.1).append (ih _ h.2)

/-! ## One listener run with nothing in between -/

theorem set_concat_length {α : Type} (xs : List α) (x y : α) :
    (xs ++ [x]).set xs.length y = xs ++ [y] := by
  simp

/-- The schedule `uninterrupted`, run from any state of the relay, does to the
registry what `handleMessage` does, dispatches what `handleMessage` sends, and
leaves the listener finished with the error `handleMessage` reports. -/
theorem run_uninterrupted (sessionId : String) (s : Relay) (message : Message)
    (result : Option String) (delivery : Delivery) :
    run sessionId s (uninterrupted s.listeners.length message result delivery) =
      { runtime :=
          { s.runtime with
            sessions := (handleMessage s.runtime.sessions sessionId message result delivery).sessions }
        listeners := s.listeners ++
          [{ message := message
             phase := Phase.finished
              (handleMessage s.runtime.sessions sessionId message result delivery).error }]
        sent := s.sent ++
          (handleMessage s.runtime.sessions sessionId message result delivery).sent.map
            (Dispatch.ofSend s.listeners.length) } := by
  obtain ⟨reply, notice⟩ := delivery
  cases hchat : onChat s.runtime.sessions sessionId message with
  | returned =>
    cases result <;> cases reply <;>
      simp [run, uninterrupted, step, handleMessage, hchat, List.getElem?_concat_length]
  | threw e =>
    cases result <;> cases reply <;>
      simp [run, uninterrupted, step, handleMessage, hchat, List.getElem?_concat_length]
  | calling sessions' context =>
    cases result <;> cases reply <;> cases notice <;>
      simp [run, uninterrupted, step, handleMessage, hchat, List.getElem?_concat_length,
        sendAll, onSettled, Dispatch.ofSend]

/-! ## Two listeners in flight -/

theorem getElem?_two_left {α : Type} (xs : List α) (a b : α) :
    (xs ++ [a, b])[xs.length]? = some a := by
  rw [List.getElem?_append_right (Nat.le_refl _)]
  simp

theorem getElem?_two_right {α : Type} (xs : List α) (a b : α) :
    (xs ++ [a, b])[xs.length + 1]? = some b := by
  rw [List.getElem?_append_right (Nat.le_succ _)]
  simp

theorem set_two_left {α : Type} (xs : List α) (a b c : α) :
    (xs ++ [a, b]).set xs.length c = xs ++ [c, b] := by
  rw [List.set_append_right _ _ (Nat.le_refl _)]
  simp

theorem set_two_right {α : Type} (xs : List α) (a b c : α) :
    (xs ++ [a, b]).set (xs.length + 1) c = xs ++ [a, c] := by
  rw [List.set_append_right _ _ (Nat.le_succ _)]
  simp

/-- The step of a listener whose `getChat()` resolves and whose block reaches
the model call. -/
theorem step_chatResolved_calling (sessionId : String) (s : Relay) (n : Nat)
    (message : Message) (sessions' : Registry) (context : List Turn)
    (hn : s.listeners[n]? = some { message := message, phase := Phase.chat })
    (hc : onChat s.runtime.sessions sessionId message = Started.calling sessions' context) :
    step sessionId s (Event.chatResolved n) =
      { s with
        runtime := { s.runtime with sessions := sessions' }
        listeners := s.listeners.set n { message := message, phase := Phase.model true } } := by
  simp [step, hn, hc]

/-- The step of a listener suspended on the model whose call settles. -/
theorem step_settled_model (sessionId : String) (s : Relay) (n : Nat) (message : Message)
    (attached : Bool) (result : Option String)
    (hn : s.listeners[n]? = some { message := message, phase := Phase.model attached }) :
    step sessionId s (Event.settled n result) =
      { s with
        runtime :=
          { s.runtime with
            sessions :=
              (onSettled s.runtime.sessions sessionId message.sender attached result).1 }
        listeners := s.listeners.set n
          { message := message
            phase := if result.isSome then Phase.replySend else Phase.noticeSend }
        sent := s.sent ++
          [{ inReplyTo := n, recipient := message.sender, text := result.getD fallbackText }] } := by
  simp [step, hn, onSettled_text]

/-- On a registered session the block of a non-empty non-group message from a
WhatsApp sender reaches the model call and leaves the session registered. -/
theorem onChat_calls (sessions : Registry) (sessionId : String) (session : Session)
    (hreg : sessions.lookup sessionId = some session) (w : Wid) (t : String) (ht : t ≠ "") :
    ∃ (sessions' : Registry) (context : List Turn) (session' : Session),
      onChat sessions sessionId { body := some t, sender := w.serialized, isGroup := false } =
        Started.calling sessions' context
      ∧ sessions'.lookup sessionId = some session' := by
  rw [onChat_registered sessions sessionId session hreg w t ht]
  exact ⟨_, _, _, rfl, Dict.lookup_set_self _ _ _⟩

/-- Two messages arrive on a registered session and both listeners reach the
model call: both are suspended on the model, in the order they arrived, behind
the listeners that were there, and nothing was sent. -/
theorem two_in_flight (sessionId : String) (s : Relay) (session : Session)
    (hreg : s.runtime.sessions.lookup sessionId = some session) (w₁ w₂ : Wid) (t₁ t₂ : String)
    (h₁ : t₁ ≠ "") (h₂ : t₂ ≠ "") :
    ∃ sessions' : Registry,
      run sessionId s
        [Event.arrive { body := some t₁, sender := w₁.serialized, isGroup := false },
         Event.arrive { body := some t₂, sender := w₂.serialized, isGroup := false },
         Event.chatResolved s.listeners.length,
         Event.chatResolved (s.listeners.length + 1)] =
      { runtime := { s.runtime with sessions := sessions' }
        listeners := s.listeners ++
          [{ message := { body := some t₁, sender := w₁.serialized, isGroup := false }
             phase := Phase.model true },
           { message := { body := some t₂, sender := w₂.serialized, isGroup := false }
             phase := Phase.model true }]
        sent := s.sent } := by
  obtain ⟨sessions₁, context₁, session₁, hc₁, hreg₁⟩ :=
    onChat_calls s.runtime.sessions sessionId session hreg w₁ t₁ h₁
  obtain ⟨sessions₂, context₂, session₂, hc₂, _⟩ :=
    onChat_calls sessions₁ sessionId session₁ hreg₁ w₂ t₂ h₂
  refine ⟨sessions₂, ?_⟩
  simp only [run, List.foldl_cons, List.foldl_nil]
  have e₁ : step sessionId
      (step sessionId s
        (Event.arrive { body := some t₁, sender := w₁.serialized, isGroup := false }))
      (Event.arrive { body := some t₂, sender := w₂.serialized, isGroup := false }) =
      { s with
        listeners := s.listeners ++
          [{ message := { body := some t₁, sender := w₁.serialized, isGroup := false }
             phase := Phase.chat },
           { message := { body := some t₂, sender := w₂.serialized, isGroup := false }
             phase := Phase.chat }] } := by
    simp [step]
  have e₂ := step_chatResolved_calling sessionId
    { s with
      listeners := s.listeners ++
        [{ message := { body := some t₁, sender := w₁.serialized, isGroup := false }
           phase := Phase.chat },
         { message := { body := some t₂, sender := w₂.serialized, isGroup := false }
           phase := Phase.chat }] }
    s.listeners.length _ sessions₁ context₁ (getElem?_two_left _ _ _) hc₁
  simp only [set_two_left] at e₂
  have e₃ := step_chatResolved_calling sessionId
    { runtime := { s.runtime with sessions := sessions₁ }
      listeners := s.listeners ++
        [{ message := { body := some t₁, sender := w₁.serialized, isGroup := false }
           phase := Phase.model true },
         { message := { body := some t₂, sender := w₂.serialized, isGroup := false }
           phase := Phase.chat }]
      sent := s.sent }
    (s.listeners.length + 1) _ sessions₂ context₂ (getElem?_two_right _ _ _) hc₂
  simp only [set_two_right] at e₃
  rw [e₁, e₂, e₃]

/-- With two listeners suspended on the model, the replies go out in the order
in which the two calls settle. -/
theorem two_settle (sessionId : String) (s : Relay) (m₁ m₂ : Message) (a₁ a₂ : Bool)
    (rest : List Listener) (r₁ r₂ : Option String)
    (hs : s.listeners = rest ++
      [{ message := m₁, phase := Phase.model a₁ }, { message := m₂, phase := Phase.model a₂ }]) :
    (run sessionId s [Event.settled (rest.length + 1) r₂, Event.settled rest.length r₁]).sent =
      s.sent ++
        [{ inReplyTo := rest.length + 1, recipient := m₂.sender, text := r₂.getD fallbackText },
         { inReplyTo := rest.length, recipient := m₁.sender, text := r₁.getD fallbackText }]
    ∧ (run sessionId s [Event.settled rest.length r₁, Event.settled (rest.length + 1) r₂]).sent =
      s.sent ++
        [{ inReplyTo := rest.length, recipient := m₁.sender, text := r₁.getD fallbackText },
         { inReplyTo := rest.length + 1, recipient := m₂.sender, text := r₂.getD fallbackText }] := by
  constructor
  · simp only [run, List.foldl_cons, List.foldl_nil]
    rw [step_settled_model sessionId s (rest.length + 1) m₂ a₂ r₂
      (by rw [hs]; exact getElem?_two_right _ _ _)]
    rw [step_settled_model sessionId _ rest.length m₁ a₁ r₁
      (by simp only [hs, set_two_right]; exact getElem?_two_left _ _ _)]
    simp
  · simp only [run, List.foldl_cons, List.foldl_nil]
    rw [step_settled_model sessionId s rest.length m₁ a₁ r₁
      (by rw [hs]; exact getElem?_two_left _ _ _)]
    rw [step_settled_model sessionId _ (rest.length + 1) m₂ a₂ r₂
      (by simp only [hs, set_two_left]; exact getElem?_two_right _ _ _)]
    simp

theorem run_append (sessionId : String) (s : Relay) (xs ys : List Event) :
    run sessionId s (xs ++ ys) = run sessionId (run sessionId s xs) ys := by
  simp [run, List.foldl_append]

/-! ## Administrative routes -/

/-- The routes answer 404 exactly when the property read comes back `undefined`
or as the empty text, and then leave the registry and `Object.prototype` as
they were. -/
theorem not_found_iff_falsy (rt : Runtime) (id userId prompt : String) :
    ((setPrompt rt id prompt).1 = Reply.json 404 "Session not found"
        ↔ (Dict.read rt.proto rt.sessions id = Read.undefined
            ∨ Dict.read rt.proto rt.sessions id = Read.inherited (Inherited.text "")))
    ∧ ((setPrompt rt id prompt).1 = Reply.json 404 "Session not found"
        → (setPrompt rt id prompt).2 = rt)
    ∧ ((clearHistory rt id userId).1 = Reply.json 404 "Session or user not found"
        ↔ (Dict.read rt.proto rt.sessions id = Read.undefined
            ∨ Dict.read rt.proto rt.sessions id = Read.inherited (Inherited.text "")
            ∨ ∃ session : Session, Dict.read rt.proto rt.sessions id = Read.own session
                ∧ (Dict.read rt.proto session.users userId = Read.undefined
                    ∨ Dict.read rt.proto session.users userId =
                        Read.inherited (Inherited.text ""))))
    ∧ ((clearHistory rt id userId).1 = Reply.json 404 "Session or user not found"
        → (clearHistory rt id userId).2 = rt) := by
  refine ⟨?_, ?_, ?_, ?_⟩
  · unfold setPrompt
    cases Dict.read rt.proto rt.sessions id with
    | own session => simp
    | undefined => simp
    | inherited x =>
      cases x with
      | text p => by_cases hp : p = "" <;> simp [Inherited.truthy, hp]
      | prototype => simp [Inherited.truthy]
      | builtin => simp [Inherited.truthy]
      | array => simp [Inherited.truthy]
  · unfold setPrompt
    cases Dict.read rt.proto rt.sessions id with
    | own session => simp
    | undefined => simp
    | inherited x =>
      cases x with
      | text p => by_cases hp : p = "" <;> simp [Inherited.truthy, hp]
      | prototype => simp [Inherited.truthy]
      | builtin => simp [Inherited.truthy]
      | array => simp [Inherited.truthy]
  · unfold clearHistory
    cases Dict.read rt.proto rt.sessions id with
    | undefined => simp
    | inherited x =>
      cases x with
      | text p => by_cases hp : p = "" <;> simp [Inherited.truthy, hp]
      | prototype => simp [Inherited.truthy]
      | builtin => simp [Inherited.truthy]
      | array => simp [Inherited.truthy]
    | own session =>
      cases h : Dict.read rt.proto session.users userId with
      | undefined => simp [h]
      | own entry => simp [h]
      | inherited y =>
        cases y with
        | text p => by_cases hp : p = "" <;> simp [h, Inherited.truthy, hp]
        | prototype => simp [h, Inherited.truthy]
        | builtin => simp [h, Inherited.truthy]
        | array => simp [h, Inherited.truthy]
  · unfold clearHistory
    cases Dict.read rt.proto rt.sessions id with
    | undefined => simp
    | inherited x =>
      cases x with
      | text p => by_cases hp : p = "" <;> simp [Inherited.truthy, hp]
      | prototype => simp [Inherited.truthy]
      | builtin => simp [Inherited.truthy]
      | array => simp [Inherited.truthy]
    | own session =>
      cases h : Dict.read rt.proto session.users userId with
      | undefined => simp [h]
      | own entry => simp [h]
      | inherited y =>
        cases y with
        | text p => by_cases hp : p = "" <;> simp [h, Inherited.truthy, hp]
        | prototype => simp [h, Inherited.truthy]
        | builtin => simp [h, Inherited.truthy]
        | array => simp [h, Inherited.truthy]

/-! ## Claims -/

/-- C1: on a registered session, for a non-empty non-group text `t` from a user
whose stored history is `h`, the model is called once, with the system turn
carrying the session prompt followed by the last ten turns of `h` plus the new
user turn, in order; that context has `1 + min (|h| + 1) 10` turns, at most
eleven, and ends with the new user turn. -/
theorem context_is_prompt_then_last_ten (sessions : Registry) (sessionId : String)
    (session : Session) (hreg : sessions.lookup sessionId = some session) (w : Wid)
    (t : String) (ht : t ≠ "") (result : Option String) (delivery : Delivery) :
    ∃ context : List Turn,
      (handleMessage sessions sessionId
        { body := some t, sender := w.serialized, isGroup := false } result delivery).calls
        = [context]
      ∧ context = Turn.mk Role.system session.prompt ::
          (session.historyOf w.serialized ++ [Turn.mk Role.user t]).drop
            ((session.historyOf w.serialized ++ [Turn.mk Role.user t]).length - 10)
      ∧ context.length = 1 + min ((session.historyOf w.serialized).length + 1) 10
      ∧ context.length ≤ 11
      ∧ context.getLast? = some (Turn.mk Role.user t) := by
  refine ⟨_, (handleMessage_registered sessions sessionId session hreg w t ht result delivery).1,
    ?_, ?_, ?_, ?_⟩
  · rw [slice_neg_ten]
  · rw [slice_neg_ten]
    simp only [List.length_cons, List.length_drop, List.length_append, List.length_nil]
    omega
  · rw [slice_neg_ten]
    simp only [List.length_cons, List.length_drop, List.length_append, List.length_nil]
    omega
  · rw [slice_neg_ten, List.getLast?_cons]
    have hlt : (session.historyOf w.serialized ++ [Turn.mk Role.user t]).length - 10
        < (session.historyOf w.serialized ++ [Turn.mk Role.user t]).length := by
      simp only [List.length_append, List.length_cons, List.length_nil]
      omega
    rw [List.getLast?_drop]
    simp only [List.length_append, List.length_cons, List.length_nil] at hlt ⊢
    rw [if_neg (by omega)]
    simp

/-- C1 at fifty stored turns: the context has eleven turns. -/
theorem context_is_prompt_then_last_ten_witness :
    busyRegistry.lookup "S" = some busySession ∧ "hello" ≠ "" ∧
    ∃ context : List Turn,
      (handleMessage busyRegistry "S"
        { body := some "hello", sender := sampleWid.serialized, isGroup := false } none
        delivered).calls = [context]
      ∧ context.length = 11 := by
  refine ⟨by decide, by decide, ?_⟩
  obtain ⟨context, hcalls, _, hlen, _, _⟩ :=
    context_is_prompt_then_last_ten busyRegistry "S" busySession (by decide) sampleWid "hello"
      (by decide) none delivered
  refine ⟨context, hcalls, ?_⟩
  rw [hlen]
  decide

/-- C2 as stated fails twice.  When a second message of the user is pushed
while the model call of the first is pending, the history after the first
handler has finished is not `h ++ [user t, assistant r]`.  When the send of
the reply is rejected, two messages are sent, the reply and the fallback
text. -/
theorem success_history_and_single_send_counterexample :
    (run "S" (Relay.start freshRegistry) (overlappingSchedule (some "first reply"))).listeners[0]?
        = some { message := sampleMessage "first", phase := Phase.finished none }
    ∧ historyOf
        (run "S" (Relay.start freshRegistry)
          (overlappingSchedule (some "first reply"))).runtime.sessions "S" sampleWid.serialized
      = [Turn.mk Role.user "first", Turn.mk Role.user "second",
          Turn.mk Role.assistant "first reply"]
    ∧ historyOf
        (run "S" (Relay.start freshRegistry)
          (overlappingSchedule (some "first reply"))).runtime.sessions "S" sampleWid.serialized
      ≠ historyOf freshRegistry "S" sampleWid.serialized ++
          [Turn.mk Role.user "first", Turn.mk Role.assistant "first reply"]
    ∧ (handleMessage freshRegistry "S" (sampleMessage "hi") (some "hello") replyRejected).sent
      = [(sampleWid.serialized, "hello"), (sampleWid.serialized, fallbackText)] := by
  decide

/-- C2, amended: on a registered session, for a non-empty non-group text `t`
from a user whose stored history is `h`, handled with no other event in
between, a model call that succeeds with reply `r` leaves the stored history
`h ++ [user t, assistant r]`; when the send of the reply resolves, exactly one
message, `r`, is sent to that user and nothing is raised.  The same holds in
the relay for the schedule of that listener run from any state.  On a newly
created session the first message "hi" calls the model with the default system
turn and the user turn and leaves the history `[user "hi", assistant r]`. -/
theorem success_appends_exchange_and_sends_reply :
    (∀ (sessions : Registry) (sessionId : String) (session : Session) (w : Wid)
        (t r : String) (delivery : Delivery),
        sessions.lookup sessionId = some session → t ≠ "" →
        historyOf (handleMessage sessions sessionId
            { body := some t, sender := w.serialized, isGroup := false } (some r)
            delivery).sessions sessionId w.serialized =
          session.historyOf w.serialized ++ [Turn.mk Role.user t, Turn.mk Role.assistant r]
        ∧ (delivery.reply = true →
            (handleMessage sessions sessionId
              { body := some t, sender := w.serialized, isGroup := false } (some r)
              delivery).sent = [(w.serialized, r)]
            ∧ (handleMessage sessions sessionId
              { body := some t, sender := w.serialized, isGroup := false } (some r)
              delivery).error = none))
    ∧ (∀ (sessionId : String) (s : Relay) (session : Session) (w : Wid) (t r : String)
        (delivery : Delivery),
        s.runtime.sessions.lookup sessionId = some session → t ≠ "" →
        historyOf (run sessionId s
            (uninterrupted s.listeners.length
              { body := some t, sender := w.serialized, isGroup := false } (some r)
              delivery)).runtime.sessions sessionId w.serialized =
          session.historyOf w.serialized ++ [Turn.mk Role.user t, Turn.mk Role.assistant r]
        ∧ (delivery.reply = true →
            (run sessionId s
              (uninterrupted s.listeners.length
                { body := some t, sender := w.serialized, isGroup := false } (some r)
                delivery)).sent =
              s.sent ++
                [{ inReplyTo := s.listeners.length, recipient := w.serialized, text := r }]))
    ∧ (∀ (sessions : Registry) (publicPath sessionId : String) (w : Wid) (r : String)
        (delivery : Delivery),
        (handleMessage (createSession sessions publicPath sessionId) sessionId
            { body := some "hi", sender := w.serialized, isGroup := false } (some r)
            delivery).calls =
          [[Turn.mk Role.system "You are a helpful assistant.", Turn.mk Role.user "hi"]]
        ∧ historyOf (handleMessage (createSession sessions publicPath sessionId) sessionId
            { body := some "hi", sender := w.serialized, isGroup := false } (some r)
            delivery).sessions sessionId w.serialized =
          [Turn.mk Role.user "hi", Turn.mk Role.assistant r]) := by
  have hmain : ∀ (sessions : Registry) (sessionId : String) (session : Session) (w : Wid)
      (t r : String) (delivery : Delivery),
      sessions.lookup sessionId = some session → t ≠ "" →
      historyOf (handleMessage sessions sessionId
          { body := some t, sender := w.serialized, isGroup := false } (some r)
          delivery).sessions sessionId w.serialized =
        session.historyOf w.serialized ++ [Turn.mk Role.user t, Turn.mk Role.assistant r]
      ∧ (delivery.reply = true →
          (handleMessage sessions sessionId
            { body := some t, sender := w.serialized, isGroup := false } (some r)
            delivery).sent = [(w.serialized, r)]
          ∧ (handleMessage sessions sessionId
            { body := some t, sender := w.serialized, isGroup := false } (some r)
            delivery).error = none) := by
    intro sessions sessionId session w t r delivery hreg ht
    obtain ⟨_, herr, hsent, hhist⟩ :=
      handleMessage_registered sessions sessionId session hreg w t ht (some r) delivery
    refine ⟨by simpa [exchange] using hhist, fun hok => ?_⟩
    rw [hsent, herr]
    simp [sendAll, hok]
  refine ⟨hmain, ?_, ?_⟩
  · intro sessionId s session w t r delivery hreg ht
    obtain ⟨hhist, hsend⟩ := hmain s.runtime.sessions sessionId session w t r delivery hreg ht
    rw [run_uninterrupted]
    refine ⟨hhist, fun hok => ?_⟩
    simp [(hsend hok).1, Dispatch.ofSend]
  · intro sessions publicPath sessionId w r delivery
    have hreg := Dict.lookup_set_self sessions sessionId
      { prompt := defaultPrompt, qrPath := publicPath ++ "/qr-" ++ sessionId ++ ".png", users := [] }
    obtain ⟨hcalls, _, _, hhist⟩ :=
      handleMessage_registered (createSession sessions publicPath sessionId) sessionId _ hreg w
        "hi" (by decide) (some r) delivery
    constructor
    · rw [hcalls]
      simp [Session.historyOf, defaultPrompt, slice]
    · rw [hhist]
      simp [Session.historyOf, exchange]

/-- C2, amended, at a stored history of fifty turns: nothing is dropped, and one
message is sent. -/
theorem success_appends_exchange_and_sends_reply_witness :
    busyRegistry.lookup "S" = some busySession ∧ "hello" ≠ "" ∧ delivered.reply = true
    ∧ historyOf (handleMessage busyRegistry "S"
        { body := some "hello", sender := sampleWid.serialized, isGroup := false }
        (some "bonjour") delivered).sessions "S" sampleWid.serialized =
      fiftyTurns ++ [Turn.mk Role.user "hello", Turn.mk Role.assistant "bonjour"]
    ∧ (handleMessage busyRegistry "S"
        { body := some "hello", sender := sampleWid.serialized, isGroup := false }
        (some "bonjour") delivered).sent = [(sampleWid.serialized, "bonjour")] :=
  ⟨by decide, by decide, rfl,
    (success_appends_exchange_and_sends_reply.1 busyRegistry "S" busySession sampleWid "hello"
      "bonjour" delivered (by decide) (by decide)).1,
    ((success_appends_exchange_and_sends_reply.1 busyRegistry "S" busySession sampleWid "hello"
      "bonjour" delivered (by decide) (by decide)).2 rfl).1⟩

/-- C3 as stated fails on a new session: after a failed model call the stored
history has changed, and the text sent is not the claim's literal. -/
theorem failure_keeps_history_counterexample :
    historyOf (handleMessage freshRegistry "S"
        { body := some "hi", sender := sampleWid.serialized, isGroup := false } none
        delivered).sessions "S" sampleWid.serialized
      ≠ historyOf freshRegistry "S" sampleWid.serialized
    ∧ (handleMessage freshRegistry "S"
        { body := some "hi", sender := sampleWid.serialized, isGroup := false } none
        delivered).sent
      ≠ [(sampleWid.serialized, "Sorry, something went wrong.")] := by
  decide

/-- C3, amended: on a registered session, for a non-empty non-group text `t`
from a user whose stored history is `h`, handled with no other event in
between, a model call that fails makes the listener send exactly one message
to that user, the fixed text of the `catch` branch, and leaves the stored
history `h ++ [user t]`; when that send resolves nothing is raised.  The same
holds in the relay for the schedule of that listener run from any state. -/
theorem failure_sends_fallback_keeps_user_turn :
    (∀ (sessions : Registry) (sessionId : String) (session : Session) (w : Wid) (t : String)
        (delivery : Delivery),
        sessions.lookup sessionId = some session → t ≠ "" →
        (handleMessage sessions sessionId
            { body := some t, sender := w.serialized, isGroup := false } none delivery).sent =
          [(w.serialized, fallbackText)]
        ∧ historyOf (handleMessage sessions sessionId
            { body := some t, sender := w.serialized, isGroup := false } none
            delivery).sessions sessionId w.serialized =
          session.historyOf w.serialized ++ [Turn.mk Role.user t]
        ∧ (delivery.notice = true →
            (handleMessage sessions sessionId
              { body := some t, sender := w.serialized, isGroup := false } none
              delivery).error = none))
    ∧ (∀ (sessionId : String) (s : Relay) (session : Session) (w : Wid) (t : String)
        (delivery : Delivery),
        s.runtime.sessions.lookup sessionId = some session → t ≠ "" →
        (run sessionId s
            (uninterrupted s.listeners.length
              { body := some t, sender := w.serialized, isGroup := false } none
              delivery)).sent =
          s.sent ++
            [{ inReplyTo := s.listeners.length, recipient := w.serialized,
               text := fallbackText }]
        ∧ historyOf (run sessionId s
            (uninterrupted s.listeners.length
              { body := some t, sender := w.serialized, isGroup := false } none
              delivery)).runtime.sessions sessionId w.serialized =
          session.historyOf w.serialized ++ [Turn.mk Role.user t]
        ∧ (delivery.notice = true →
            (run sessionId s
              (uninterrupted s.listeners.length
                { body := some t, sender := w.serialized, isGroup := false } none
                delivery)).listeners =
              s.listeners ++
                [{ message := { body := some t, sender := w.serialized, isGroup := false }
                   phase := Phase.finished none }])) := by
  have hmain : ∀ (sessions : Registry) (sessionId : String) (session : Session) (w : Wid)
      (t : String) (delivery : Delivery),
      sessions.lookup sessionId = some session → t ≠ "" →
      (handleMessage sessions sessionId
          { body := some t, sender := w.serialized, isGroup := false } none delivery).sent =
        [(w.serialized, fallbackText)]
      ∧ historyOf (handleMessage sessions sessionId
          { body := some t, sender := w.serialized, isGroup := false } none
          delivery).sessions sessionId w.serialized =
        session.historyOf w.serialized ++ [Turn.mk Role.user t]
      ∧ (delivery.notice = true →
          (handleMessage sessions sessionId
            { body := some t, sender := w.serialized, isGroup := false } none
            delivery).error = none) := by
    intro sessions sessionId session w t delivery hreg ht
    obtain ⟨_, herr, hsent, hhist⟩ :=
      handleMessage_registered sessions sessionId session hreg w t ht none delivery
    refine ⟨by simpa [sendAll] using hsent, by simpa [exchange] using hhist, fun hok => ?_⟩
    rw [herr]
    simp [sendAll, hok]
  refine ⟨hmain, ?_⟩
  intro sessionId s session w t delivery hreg ht
  obtain ⟨hsent, hhist, herr⟩ := hmain s.runtime.sessions sessionId session w t delivery hreg ht
  rw [run_uninterrupted]
  refine ⟨by simp [hsent, Dispatch.ofSend], hhist, fun hok => ?_⟩
  simp [herr hok]

/-- C3, amended, at a stored history of fifty turns. -/
theorem failure_sends_fallback_keeps_user_turn_witness :
    busyRegistry.lookup "S" = some busySession ∧ "hello" ≠ "" ∧
    (handleMessage busyRegistry "S"
        { body := some "hello", sender := sampleWid.serialized, isGroup := false } none
        delivered).sent = [(sampleWid.serialized, fallbackText)]
    ∧ historyOf (handleMessage busyRegistry "S"
        { body := some "hello", sender := sampleWid.serialized, isGroup := false } none
        delivered).sessions "S" sampleWid.serialized = fiftyTurns ++ [Turn.mk Role.user "hello"] :=
  ⟨by decide, by decide,
    (failure_sends_fallback_keeps_user_turn.1 busyRegistry "S" busySession sampleWid "hello"
      delivered (by decide) (by decide)).1,
    (failure_sends_fallback_keeps_user_turn.1 busyRegistry "S" busySession sampleWid "hello"
      delivered (by decide) (by decide)).2.1⟩

/-- C4: a message whose text is absent or empty, or whose chat is a group,
leaves the registry as it was, calls no model, sends nothing and raises
nothing, whatever the registry and the session id. -/
theorem ignored_message_has_no_effect (sessions : Registry) (sessionId : String)
    (message : Message) (result : Option String) (delivery : Delivery)
    (h : message.body = none ∨ message.body = some "" ∨ message.isGroup = true) :
    handleMessage sessions sessionId message result delivery =
      { sessions := sessions, calls := [], sent := [], error := none } := by
  obtain ⟨body, sender, isGroup⟩ := message
  rcases h with h | h | h
  · simp only at h
    subst h
    simp [handleMessage, onChat]
  · simp only at h
    subst h
    simp [handleMessage, onChat]
  · simp only at h
    subst h
    cases body <;> simp [handleMessage, onChat]

/-- C4 on a group message that carries text. -/
theorem ignored_message_has_no_effect_witness :
    handleMessage busyRegistry "S"
        { body := some "hello all", sender := "120363000000000000@g.us", isGroup := true }
        (some "bonjour") delivered =
      { sessions := busyRegistry, calls := [], sent := [], error := none } :=
  ignored_message_has_no_effect busyRegistry "S" _ (some "bonjour") delivered
    (Or.inr (Or.inr rfl))

/-- C5 as stated fails on a new session: after one message whose model call
failed the stored history is the lone user turn, with no assistant turn after
it. -/
theorem history_alternates_counterexample :
    historyOf (handleAll freshRegistry "S" (fromSender sampleWid [("hi", none, delivered)])) "S"
        sampleWid.serialized = [Turn.mk Role.user "hi"]
    ∧ alternates
        (historyOf (handleAll freshRegistry "S" (fromSender sampleWid [("hi", none, delivered)]))
          "S" sampleWid.serialized) = false := by
  decide

/-- C5, amended: for non-empty non-group messages of one user on a registered
session, each handled to completion before the next, the stored history is the
earlier history followed, message by message in arrival order, by the user
turn and then, exactly when the model call succeeded, one assistant turn with
the reply; so from an alternating history it alternates user, assistant
whenever no model call failed. -/
theorem history_lists_exchanges_in_order (sessions : Registry) (sessionId : String)
    (session : Session) (hreg : sessions.lookup sessionId = some session) (w : Wid)
    (inputs : List (String × Option String × Delivery)) (hne : ∀ x ∈ inputs, x.1 ≠ "") :
    historyOf (handleAll sessions sessionId (fromSender w inputs)) sessionId w.serialized =
        session.historyOf w.serialized ++ (inputs.map fun x => exchange x.1 x.2.1).flatten
    ∧ ((∀ x ∈ inputs, x.2.1 ≠ none) → alternates (session.historyOf w.serialized) = true →
        alternates (historyOf (handleAll sessions sessionId (fromSender w inputs)) sessionId
          w.serialized) = true) := by
  have hhist := handleAll_history w inputs sessions sessionId session hreg hne
  refine ⟨hhist, fun hok halt => ?_⟩
  rw [hhist]
  exact alternates_append _ _ halt (alternates_exchanges inputs hok)

/-- C5, amended, on three messages of which the second fails. -/
theorem history_lists_exchanges_in_order_witness :
    freshRegistry.lookup "S" = some freshSession
    ∧ (∀ x ∈ [("a", some "ra", delivered), ("b", none, delivered), ("c", some "rc", delivered)],
        x.1 ≠ "")
    ∧ historyOf (handleAll freshRegistry "S"
          (fromSender sampleWid
            [("a", some "ra", delivered), ("b", none, delivered), ("c", some "rc", delivered)]))
          "S" sampleWid.serialized =
        [Turn.mk Role.user "a", Turn.mk Role.assistant "ra", Turn.mk Role.user "b",
          Turn.mk Role.user "c", Turn.mk Role.assistant "rc"] :=
  ⟨by decide, by decide,
    (history_lists_exchanges_in_order freshRegistry "S" freshSession (by decide) sampleWid
      [("a", some "ra", delivered), ("b", none, delivered), ("c", some "rc", delivered)]
      (by decide)).1.trans (by decide)⟩

/-- C6 on the code: a non-empty non-group message for a session id that is not
in the registry leaves the registry as it was, calls no model and sends
nothing, and the listener throws a `TypeError`. -/
theorem unregistered_session_throws (sessions : Registry) (sessionId : String)
    (message : Message) (t : String) (result : Option String) (delivery : Delivery)
    (hgone : sessions.lookup sessionId = none) (hbody : message.body = some t) (ht : t ≠ "")
    (hchat : message.isGroup = false) :
    handleMessage sessions sessionId message result delivery =
      { sessions := sessions, calls := [], sent := [], error := some JsError.typeError } := by
  obtain ⟨body, sender, isGroup⟩ := message
  simp only at hbody hchat
  subst hbody hchat
  by_cases hk : sessionId ∈ objectPrototypeKeys <;>
    simp [handleMessage, onChat, ht, Dict.get, hgone, hk]

/-- C6 on the code, after the `disconnected` listener removed session `S`. -/
theorem unregistered_session_throws_witness :
    handleMessage (onDisconnected freshRegistry "S") "S"
        { body := some "hi", sender := sampleWid.serialized, isGroup := false } (some "hello")
        delivered =
      { sessions := onDisconnected freshRegistry "S", calls := [], sent := [],
        error := some JsError.typeError } :=
  unregistered_session_throws (onDisconnected freshRegistry "S") "S" _ "hi" (some "hello")
    delivered (by decide) rfl (by decide) rfl

/-- C7: when session `S` and user `U` of `S` exist, clear-history answers 200
"User history cleared", leaves `U` an entry with an empty history, and keeps
every other user entry of `S`, the prompt and pairing path of `S`, every other
session and `Object.prototype` as they were. -/
theorem clear_history_empties_only_that_user (rt : Runtime) (sessionId userId : String)
    (session : Session) (entry : UserEntry) (hreg : rt.sessions.lookup sessionId = some session)
    (huser : session.users.lookup userId = some entry) :
    (clearHistory rt sessionId userId).1 = Reply.json 200 "User history cleared"
    ∧ historyOf (clearHistory rt sessionId userId).2.sessions sessionId userId = []
    ∧ (∃ session' : Session,
        (clearHistory rt sessionId userId).2.sessions.lookup sessionId = some session'
        ∧ session'.users.lookup userId = some { history := [] }
        ∧ (∀ other : String, other ≠ userId →
            session'.users.lookup other = session.users.lookup other)
        ∧ session'.prompt = session.prompt
        ∧ session'.qrPath = session.qrPath)
    ∧ (∀ other : String, other ≠ userId →
        historyOf (clearHistory rt sessionId userId).2.sessions sessionId other =
          historyOf rt.sessions sessionId other)
    ∧ (∀ other : String, other ≠ sessionId →
        (clearHistory rt sessionId userId).2.sessions.lookup other = rt.sessions.lookup other)
    ∧ (clearHistory rt sessionId userId).2.proto = rt.proto := by
  have hclear : clearHistory rt sessionId userId =
      (Reply.json 200 "User history cleared",
        { rt with
          sessions := Dict.set rt.sessions sessionId
            { session with users := Dict.set session.users userId { history := [] } } }) := by
    simp [clearHistory, Dict.read, hreg, huser]
  rw [hclear]
  refine ⟨rfl, historyOf_set rt.sessions sessionId userId session [], ?_, ?_, ?_, rfl⟩
  · exact ⟨_, Dict.lookup_set_self _ _ _, Dict.lookup_set_self _ _ _,
      fun other hne => Dict.lookup_set_ne _ _ _ _ hne, rfl, rfl⟩
  · intro other hne
    simp [historyOf, Session.historyOf, Dict.lookup_set_self, hreg,
      Dict.lookup_set_ne _ _ _ _ hne]
  · intro other hne
    exact Dict.lookup_set_ne _ _ _ _ hne

/-- C7 on a session with two users: the other user keeps their history. -/
theorem clear_history_empties_only_that_user_witness :
    busyRuntime.sessions.lookup "S" = some busySession
    ∧ busySession.users.lookup "15550001111@c.us" = some { history := fiftyTurns }
    ∧ historyOf (clearHistory busyRuntime "S" "15550001111@c.us").2.sessions "S"
        "15550001111@c.us" = []
    ∧ historyOf (clearHistory busyRuntime "S" "15550001111@c.us").2.sessions "S"
        "15550002222@c.us" = [Turn.mk Role.user "hola"] := by
  have h := clear_history_empties_only_that_user busyRuntime "S" "15550001111@c.us" busySession
    { history := fiftyTurns } (by decide) (by decide)
  refine ⟨by decide, by decide, h.2.1, ?_⟩
  rw [h.2.2.2.1 "15550002222@c.us" (by decide)]
  decide

/-- C8 on the code, at ids that name a property inherited from
`Object.prototype` and are in no registry: set-prompt answers 200 for such a
session id, clear-history answers 200 for such a user id of an existing
session, and clear-history throws for such a session id.  Through the id
`__proto__` the routes write `Object.prototype` itself, after which the ids
`prompt` and `history`, in no registry either, pass the guard as well. -/
theorem inherited_names_pass_the_guards :
    freshRegistry.lookup "constructor" = none
    ∧ setPrompt freshRuntime "constructor" "Reply in French." =
        (Reply.json 200 "Prompt updated", freshRuntime)
    ∧ (∀ session : Session, freshRegistry.lookup "S" = some session →
        session.users.lookup "constructor" = none)
    ∧ clearHistory freshRuntime "S" "constructor" =
        (Reply.json 200 "User history cleared", freshRuntime)
    ∧ clearHistory freshRuntime "constructor" "unknownUser" =
        (Reply.threw JsError.typeError, freshRuntime)
    ∧ freshRegistry.lookup "prompt" = none
    ∧ (setPrompt freshRuntime "prompt" "Reply in French.").1 =
        Reply.json 404 "Session not found"
    ∧ (setPrompt (setPrompt freshRuntime "__proto__" "Reply in French.").2 "prompt"
          "Reply in French.").1 = Reply.json 200 "Prompt updated"
    ∧ freshRegistry.lookup "history" = none
    ∧ (clearHistory (clearHistory freshRuntime "S" "__proto__").2 "history" "unknownUser").1 =
        Reply.threw JsError.typeError := by
  refine ⟨by decide, by decide, ?_, by decide, by decide, by decide, by decide, by decide,
    by decide, by decide⟩
  intro session h
  have h' : freshRegistry.lookup "S" = some freshSession := by decide
  rw [h'] at h
  rw [← Option.some.inj h]
  rfl

/-- C9: on a registered session, set-prompt with text `p` answers 200, leaves
every stored history of the session as it was, and the next non-empty
non-group message of the session is sent to the model in a single call whose
context starts with the system turn carrying `p`. -/
theorem set_prompt_applies_to_next_message (rt : Runtime) (sessionId : String)
    (session : Session) (hreg : rt.sessions.lookup sessionId = some session) (p : String)
    (w : Wid) (t : String) (ht : t ≠ "") (result : Option String) (delivery : Delivery) :
    (setPrompt rt sessionId p).1 = Reply.json 200 "Prompt updated"
    ∧ (∀ userId : String,
        historyOf (setPrompt rt sessionId p).2.sessions sessionId userId =
          historyOf rt.sessions sessionId userId)
    ∧ ∃ context : List Turn,
        (handleMessage (setPrompt rt sessionId p).2.sessions sessionId
          { body := some t, sender := w.serialized, isGroup := false } result delivery).calls
          = [context]
        ∧ context.head? = some (Turn.mk Role.system p) := by
  have hset : setPrompt rt sessionId p =
      (Reply.json 200 "Prompt updated",
        { rt with sessions := Dict.set rt.sessions sessionId { session with prompt := p } }) := by
    simp [setPrompt, Dict.read, hreg]
  rw [hset]
  refine ⟨rfl, ?_, ?_⟩
  · intro userId
    simp [historyOf, Session.historyOf, Dict.lookup_set_self, hreg]
  · have hcalls := (handleMessage_registered
      (Dict.set rt.sessions sessionId { session with prompt := p })
      sessionId { session with prompt := p } (Dict.lookup_set_self _ _ _) w t ht result
      delivery).1
    exact ⟨_, hcalls, rfl⟩

/-- C9 with the prompt "Reply in French." and the message "hello". -/
theorem set_prompt_applies_to_next_message_witness :
    freshRuntime.sessions.lookup "S" = some freshSession
    ∧ "hello" ≠ ""
    ∧ ∃ context : List Turn,
        (handleMessage (setPrompt freshRuntime "S" "Reply in French.").2.sessions "S"
          { body := some "hello", sender := sampleWid.serialized, isGroup := false }
          (some "bonjour") delivered).calls = [context]
        ∧ context.head? = some (Turn.mk Role.system "Reply in French.") :=
  ⟨by decide, by decide,
    (set_prompt_applies_to_next_message freshRuntime "S" freshSession (by decide)
      "Reply in French." sampleWid "hello" (by decide) (some "bonjour") delivered).2.2⟩

/-- C10 as stated fails: two messages of one user arrive, the model call of the
second settles first, and its reply is sent first. -/
theorem replies_in_arrival_order_counterexample :
    (run "S" (Relay.start freshRegistry) overtakingSchedule).sent =
      [{ inReplyTo := 1, recipient := sampleWid.serialized, text := "second reply" },
       { inReplyTo := 0, recipient := sampleWid.serialized, text := "first reply" }]
    ∧ ¬ ((run "S" (Relay.start freshRegistry) overtakingSchedule).sent.map
          Dispatch.inReplyTo).Pairwise (· < ·) := by
  decide

/-- C10, amended: replies are dispatched in the order in which the model calls
settle.  The settlement of a listener suspended on its model call sends that
message's reply, or the fallback text after a failure, at once and behind
everything sent before; over any schedule the dispatch log grows by exactly
what its events dispatch, in schedule order.  So when two messages are both
waiting for the model, the second is answered first if its call settles first
and the first is answered first otherwise; and with no rejected send, replies
follow the order of arrival whenever the model calls settle in that order. -/
theorem replies_follow_settlement_order :
    (∀ (sessionId : String) (s : Relay) (n : Nat) (message : Message) (attached : Bool)
        (result : Option String),
        s.listeners[n]? = some { message := message, phase := Phase.model attached } →
        (step sessionId s (Event.settled n result)).sent =
          s.sent ++
            [{ inReplyTo := n, recipient := message.sender,
               text := result.getD fallbackText }])
    ∧ (∀ (sessionId : String) (s : Relay) (events : List Event),
        (run sessionId s events).sent = s.sent ++ dispatchedOver sessionId s events)
    ∧ (∀ (sessionId : String) (s : Relay) (session : Session) (w₁ w₂ : Wid) (t₁ t₂ : String)
        (r₁ r₂ : Option String),
        s.runtime.sessions.lookup sessionId = some session → t₁ ≠ "" → t₂ ≠ "" →
        (run sessionId s
          ([Event.arrive { body := some t₁, sender := w₁.serialized, isGroup := false },
            Event.arrive { body := some t₂, sender := w₂.serialized, isGroup := false },
            Event.chatResolved s.listeners.length,
            Event.chatResolved (s.listeners.length + 1)] ++
           [Event.settled (s.listeners.length + 1) r₂,
            Event.settled s.listeners.length r₁])).sent =
          s.sent ++
            [{ inReplyTo := s.listeners.length + 1, recipient := w₂.serialized,
               text := r₂.getD fallbackText },
             { inReplyTo := s.listeners.length, recipient := w₁.serialized,
               text := r₁.getD fallbackText }]
        ∧ (run sessionId s
          ([Event.arrive { body := some t₁, sender := w₁.serialized, isGroup := false },
            Event.arrive { body := some t₂, sender := w₂.serialized, isGroup := false },
            Event.chatResolved s.listeners.length,
            Event.chatResolved (s.listeners.length + 1)] ++
           [Event.settled s.listeners.length r₁,
            Event.settled (s.listeners.length + 1) r₂])).sent =
          s.sent ++
            [{ inReplyTo := s.listeners.length, recipient := w₁.serialized,
               text := r₁.getD fallbackText },
             { inReplyTo := s.listeners.length + 1, recipient := w₂.serialized,
               text := r₂.getD fallbackText }])
    ∧ (∀ (sessionId : String) (sessions : Registry) (events : List Event),
        sendsResolve events = true → (settledIds events).Pairwise (· < ·) →
        ((run sessionId (Relay.start sessions) events).sent.map Dispatch.inReplyTo).Pairwise
          (· < ·)) := by
  refine ⟨?_, fun sessionId s events => run_sent sessionId events s, ?_, ?_⟩
  · intro sessionId s n message attached result hn
    rw [step_settled_model sessionId s n message attached result hn]
  · intro sessionId s session w₁ w₂ t₁ t₂ r₁ r₂ hreg h₁ h₂
    obtain ⟨sessions', hrun⟩ := two_in_flight sessionId s session hreg w₁ w₂ t₁ t₂ h₁ h₂
    have hsettle := two_settle sessionId _
      { body := some t₁, sender := w₁.serialized, isGroup := false }
      { body := some t₂, sender := w₂.serialized, isGroup := false } true true s.listeners r₁ r₂
      (congrArg Relay.listeners hrun)
    rw [run_append, run_append]
    refine ⟨?_, ?_⟩
    · rw [hsettle.1, hrun]
    · rw [hsettle.2, hrun]
  · intro sessionId sessions events hsend hsorted
    rw [run_sent]
    have hsub := dispatchedOver_ids sessionId events (Relay.start sessions) hsend
    simpa [Relay.start] using hsorted.sublist hsub

/-- C10, amended, on two messages handled one after the other. -/
theorem replies_follow_settlement_order_witness :
    sendsResolve inTurnSchedule = true
    ∧ (settledIds inTurnSchedule).Pairwise (· < ·)
    ∧ ((run "S" (Relay.start freshRegistry) inTurnSchedule).sent.map
          Dispatch.inReplyTo).Pairwise (· < ·)
    ∧ (run "S" (Relay.start freshRegistry) inTurnSchedule).sent =
        [{ inReplyTo := 0, recipient := sampleWid.serialized, text := "first reply" },
         { inReplyTo := 1, recipient := sampleWid.serialized, text := fallbackText }] :=
  ⟨by decide, by decide,
    replies_follow_settlement_order.2.2.2 "S" freshRegistry inTurnSchedule (by decide)
      (by decide),
    by decide⟩

end WhatsappBot
